import Mathlib

/-!
# Verification of the Rede_Labs marketplace engine

Shallow embedding of the battle-scoped marketplace backend under `app/`
(routers, services and models), together with proofs checking the
natural-language specification against it.

Conventions used throughout:
* Python `int` is embedded as `Int` (arbitrary precision in both).
* SQLAlchemy rows become Lean structures; the database session becomes an
  explicit `Store` value holding the rows of each table in insertion order.
* `db.query(...).filter(...).first()` becomes `List.find?`;
  `.all()` with a filter becomes `List.filter`.
* Fallible endpoints return `Except ApiError`; an uncaught Python
  exception that is not an `HTTPException` is embedded structurally:
  `ApiError.typeErr` for a `TypeError` (calling a function with the
  wrong number of arguments), `ApiError.attrErr` for an
  `AttributeError` (reading a column the ORM model does not declare).
-/

deriving instance DecidableEq for Except

namespace Marketplace

/-! ## Rows of the store

Field layout follows the SQLAlchemy models under `app/models/` and the
alembic migrations (`c92456e9dae2` adds `battle_id` to every table,
`88bb53bc0a70` adds `wholesale_cost_at_purchase` to `purchases`).  The
`purchases` table is embedded with the columns the routers read and write
(`app/routers/purchases.py`, `app/routers/rankings.py`,
`app/routers/sellers.py` use `battle_id`, `round` and
`wholesale_cost_at_purchase` on purchase rows). -/

structure SellerRow where
  id : String
  battle_id : String
  auth_token : String
deriving DecidableEq, Repr

structure BuyerRow where
  id : String
  battle_id : String
  auth_token : String
  name : String
deriving DecidableEq, Repr

structure ProductRow where
  id : String
  battle_id : String
  seller_id : String
  name : String
  short_description : String
  long_description : String
  price_in_cent : Int
  wholesale_cost_cents : Int
  bestseller : Bool
  ranking : Option Int
deriving DecidableEq, Repr

structure PurchaseRow where
  id : String
  product_id : String
  buyer_id : String
  battle_id : String
  purchased_at : Int
  round : Int
  price_of_purchase : Int
  wholesale_cost_at_purchase : Int
deriving DecidableEq, Repr

structure MetadataRow where
  key : String
  battle_id : String
  value : String
deriving DecidableEq, Repr

/-- The relational store, one list per table, rows in insertion order. -/
structure Store where
  sellers : List SellerRow
  buyers : List BuyerRow
  products : List ProductRow
  purchases : List PurchaseRow
  metadata : List MetadataRow
deriving DecidableEq, Repr

/-- Errors surfaced by endpoints.  `http` is a raised `HTTPException`
with status code and detail; `typeErr` is an uncaught Python `TypeError`
and `attrErr` an uncaught `AttributeError` (FastAPI turns either into a
500 response). -/
inductive ApiError where
  | http (status : Nat) (detail : String)
  | typeErr (msg : String)
  | attrErr (msg : String)
deriving DecidableEq, Repr

/-! ## Auth token codec (`app/models/seller.py`, `app/models/buyer.py`) -/

/-- `str.split(":")` from Python, on the character list of a string.
`splitOnColon [] = [[]]` matches `"".split(":") == [""]`. -/
def splitOnColon : List Char → List (List Char)
  | [] => [[]]
  | c :: rest =>
    let r := splitOnColon rest
    if c = ':' then [] :: r
    else
      match r with
      | [] => [[c]]
      | p :: ps => (c :: p) :: ps

/-- `token.split(":")` as a list of strings. -/
def pySplitColon (s : String) : List String :=
  (splitOnColon s.data).map String.mk

/-- `Seller.generate_auth_token` / `Buyer.generate_auth_token`:
`f"{entity_id}:{battle_id}:{secret}"`.  The random
`secrets.token_urlsafe(32)` secret is abstracted as the `secret`
parameter; its output alphabet (`A–Z a–z 0–9 - _`) never contains a
colon. -/
def generate_auth_token (entity_id battle_id secret : String) : String :=
  entity_id ++ ":" ++ battle_id ++ ":" ++ secret

/-- `Seller.decode_auth_token` / `Buyer.decode_auth_token`: split on `:`,
return the first two parts when there are exactly three, else `None`. -/
def decode_auth_token (token : String) : Option (String × String) :=
  match pySplitColon token with
  | [a, b, _] => some (a, b)
  | _ => none

/-! ## Phase gate (`app/services/phase_manager.py`) -/

/-- Lifecycle phases (`Phase` enum).  `open` is a Lean keyword, hence
the trailing underscore on the third constructor. -/
inductive Phase where
  | seller_management
  | buyer_shopping
  | open_
deriving DecidableEq, Repr

/-- `phase.value` of the Python `str`-valued enum. -/
def Phase.value : Phase → String
  | .seller_management => "seller_management"
  | .buyer_shopping => "buyer_shopping"
  | .open_ => "open"

/-- `Phase(value)`: the enum constructor, `none` models the raised
`ValueError` for unrecognized values. -/
def parsePhase (s : String) : Option Phase :=
  if s = "seller_management" then some .seller_management
  else if s = "buyer_shopping" then some .buyer_shopping
  else if s = "open" then some .open_
  else none

def PHASE_KEY : String := "current_phase"

def DEFAULT_PHASE : Phase := .seller_management

/-- `get_current_phase(db, battle_id)`: first metadata row with
`key == PHASE_KEY and battle_id == battle_id`; default when missing,
default again when the stored value is unrecognized. -/
def get_current_phase (db : Store) (battle_id : String) : Phase :=
  match db.metadata.find? (fun m => m.key = PHASE_KEY ∧ m.battle_id = battle_id) with
  | none => DEFAULT_PHASE
  | some record => (parsePhase record.value).getD DEFAULT_PHASE

/-- Mutate the first element satisfying `p`, leaving the rest alone —
the effect of assigning to the row returned by `.first()`. -/
def updateFirst {α : Type} (p : α → Bool) (f : α → α) : List α → List α
  | [] => []
  | x :: xs => if p x then f x :: xs else x :: updateFirst p f xs

/-- `set_current_phase(db, battle_id, phase)`: upsert of the phase row
(the update branch mutates only the row `.first()` returned). -/
def set_current_phase (db : Store) (battle_id : String) (phase : Phase) : Store :=
  match db.metadata.find? (fun m => m.key = PHASE_KEY ∧ m.battle_id = battle_id) with
  | none =>
      { db with metadata :=
          db.metadata ++ [⟨PHASE_KEY, battle_id, phase.value⟩] }
  | some _ =>
      let md := updateFirst (fun m => m.key = PHASE_KEY ∧ m.battle_id = battle_id)
        (fun m => { m with value := phase.value }) db.metadata
      { db with metadata := md }

/-- The `HTTPException(status_code=403, detail=...)` raised by
`ensure_phase`, kept structured: the rendered `detail` string is built
from the current phase and the allowed labels exactly as in the source
(the source joins the labels of `set(allowed_phases)`; sets in Python
iterate in unspecified order, here first-occurrence order is used). -/
structure PhaseViolation where
  status : Nat
  current : Phase
  allowed : List Phase
  detail : String
deriving DecidableEq, Repr

/-- First-occurrence deduplication (auxiliary: `seen` holds the values
already emitted). -/
def dedupFAux {α : Type} [DecidableEq α] (seen : List α) : List α → List α
  | [] => []
  | x :: xs =>
    if x ∈ seen then dedupFAux seen xs
    else x :: dedupFAux (seen ++ [x]) xs

/-- First-occurrence deduplication, the membership part of Python
`set(...)`. -/
def dedupF {α : Type} [DecidableEq α] (l : List α) : List α := dedupFAux [] l

/-- `", ".join(phase.value for phase in allowed_set) or "none"`. -/
def allowedLabels (allowed : List Phase) : String :=
  match dedupF allowed with
  | [] => "none"
  | l => String.intercalate ", " (l.map Phase.value)

/-- `ensure_phase(db, battle_id, allowed_phases)`: succeed with the
current phase when it is OPEN or allowed, otherwise raise 403 naming the
current phase and the allowed set. -/
def ensure_phase (db : Store) (battle_id : String) (allowed_phases : List Phase) :
    Except PhaseViolation Phase :=
  let current_phase := get_current_phase db battle_id
  if current_phase = Phase.open_ ∨ current_phase ∈ allowed_phases then
    Except.ok current_phase
  else
    Except.error
      { status := 403
        current := current_phase
        allowed := allowed_phases
        detail := "Operation not allowed during phase " ++ current_phase.value
          ++ ". Allowed phases: " ++ allowedLabels allowed_phases }

/-! ## Day and round counters (`app/services/day_manager.py`,
`app/services/round_manager.py`) -/

/-- ASCII whitespace, as stripped by Python `int(...)`. -/
def isPySpace (c : Char) : Bool :=
  c = ' ' ∨ c = '\t' ∨ c = '\n' ∨ c = '\r' ∨ c = '\x0b' ∨ c = '\x0c'

/-- Strip leading and trailing whitespace from a character list. -/
def pyStrip (cs : List Char) : List Char :=
  ((cs.dropWhile isPySpace).reverse.dropWhile isPySpace).reverse

/-- Python `int(s)` on a string: optional surrounding whitespace, an
optional sign, then a non-empty run of decimal digits (numeric
underscores are not modelled); `none` models the raised `ValueError`. -/
def pyInt (s : String) : Option Int :=
  let t := pyStrip s.data
  let signAndDigits : Int × List Char :=
    match t with
    | '-' :: rest => (-1, rest)
    | '+' :: rest => (1, rest)
    | _ => (1, t)
  let ds := signAndDigits.2
  if ds ≠ [] ∧ ds.all Char.isDigit then
    some (signAndDigits.1 *
      (ds.foldl (fun acc c => acc * 10 + (c.toNat - 48)) (0 : Nat) : Nat))
  else none

def DAY_KEY : String := "current_day"

def DEFAULT_DAY : Int := 0

/-- `get_current_day(db)`.  NOTE: faithful to the source, which takes no
`battle_id` and filters only on the key, so the first `current_day` row
of any battle is read. -/
def get_current_day (db : Store) : Int :=
  match db.metadata.find? (fun m => m.key = DAY_KEY) with
  | none => DEFAULT_DAY
  | some record => (pyInt record.value).getD DEFAULT_DAY

/-- `set_current_day(db, day)`: reject negative days; otherwise mutate
the first `current_day` row of any battle (only that row).  When no row
exists the source constructs `Metadata(key=DAY_KEY, value=str(day))`
without a `battle_id`; committing that row violates the `NOT NULL`
constraint on `metadata.battle_id`, embedded as an HTTP 500. -/
def set_current_day (db : Store) (day : Int) : Except ApiError (Int × Store) :=
  if day < 0 then
    Except.error (ApiError.http 400 "Day must be a non-negative integer")
  else
    match db.metadata.find? (fun m => m.key = DAY_KEY) with
    | none => Except.error (ApiError.http 500
        "IntegrityError: metadata.battle_id may not be NULL")
    | some _ =>
        let md := updateFirst (fun m => m.key = DAY_KEY)
          (fun m => { m with value := toString day }) db.metadata
        Except.ok (day, { db with metadata := md })

def ROUND_KEY : String := "current_round"

def DEFAULT_ROUND : Int := 1

/-- `get_current_round(db, battle_id)`: per-battle, default 1, default
again when the stored value does not parse as an integer. -/
def get_current_round (db : Store) (battle_id : String) : Int :=
  match db.metadata.find? (fun m => m.key = ROUND_KEY ∧ m.battle_id = battle_id) with
  | none => DEFAULT_ROUND
  | some record => (pyInt record.value).getD DEFAULT_ROUND

/-- `set_current_round(db, battle_id, round_number)`: reject rounds
below one; otherwise upsert the per-battle row (the update branch
mutates only the row `.first()` returned). -/
def set_current_round (db : Store) (battle_id : String) (round_number : Int) :
    Except ApiError (Int × Store) :=
  if round_number < 1 then
    Except.error (ApiError.http 400 "Round must be a positive integer")
  else
    match db.metadata.find? (fun m => m.key = ROUND_KEY ∧ m.battle_id = battle_id) with
    | none =>
        let md := db.metadata ++ [⟨ROUND_KEY, battle_id, toString round_number⟩]
        Except.ok (round_number, { db with metadata := md })
    | some _ =>
        let md := updateFirst (fun m => m.key = ROUND_KEY ∧ m.battle_id = battle_id)
          (fun m => { m with value := toString round_number }) db.metadata
        Except.ok (round_number, { db with metadata := md })

/-! ## Stable sorting

Python `list.sort` / `sorted` are stable.  `stableSortBy lt` below is a
stable insertion sort for a strict "must come before" test `lt`; any two
stable sorts with the same comparisons agree, so this models Python
exactly.  `sorted(..., key=k)` is `stableSortBy (fun a b => k a < k b)`
and `sorted(..., key=k, reverse=True)` is
`stableSortBy (fun a b => k b < k a)` (CPython documents that `reverse`
preserves the original order of ties). -/

def insertB {α : Type} (lt : α → α → Bool) (x : α) : List α → List α
  | [] => [x]
  | y :: ys => if lt x y then x :: y :: ys else y :: insertB lt x ys

def stableSortBy {α : Type} (lt : α → α → Bool) (xs : List α) : List α :=
  xs.foldl (fun acc x => insertB lt x acc) []

/-- Lexicographic combination of two strict comparators
(Python tuple comparison). -/
def lexB {α β : Type} [DecidableEq α]
    (ltA : α → α → Bool) (ltB : β → β → Bool) (x y : α × β) : Bool :=
  ltA x.1 y.1 || (decide (x.1 = y.1) && ltB x.2 y.2)

def intLtB (a b : Int) : Bool := decide (a < b)

/-- Lexicographic comparison of character lists by code point —
Python string comparison. -/
def listCharLtB : List Char → List Char → Bool
  | [], [] => false
  | [], _ :: _ => true
  | _ :: _, [] => false
  | a :: as, b :: bs =>
    if a < b then true else if b < a then false else listCharLtB as bs

def strLtB (a b : String) : Bool := listCharLtB a.data b.data

/-! ## Product search (`app/routers/search.py`) -/

/-- `pat` starts `hay`. -/
def listStartsWith : List Char → List Char → Bool
  | [], _ => true
  | _ :: _, [] => false
  | a :: ps, b :: hs => a = b && listStartsWith ps hs

/-- `pat` occurs inside `hay`. -/
def listContainsSeq (pat : List Char) : List Char → Bool
  | [] => pat.isEmpty
  | c :: hs => listStartsWith pat (c :: hs) || listContainsSeq pat hs

/-- SQL `column ILIKE %pattern%`: case-insensitive substring match. -/
def ilike (haystack pattern : String) : Bool :=
  listContainsSeq pattern.toLower.data haystack.toLower.data

/-- Sort key of `/search`: `ranking.asc().nullslast()`, then
`bestseller.desc()`, then `name`. -/
def searchLt (a b : ProductRow) : Bool :=
  let key := fun (p : ProductRow) =>
    ((if p.ranking.isNone then (1 : Int) else 0),
      (p.ranking.getD 0, ((if p.bestseller then (0 : Int) else 1), p.name)))
  lexB intLtB (lexB intLtB (lexB intLtB strLtB)) (key a) (key b)

/-- `search_products(q, seller_id, db)`.  The base query is
`db.query(Product)` — the whole `products` table, every battle; there is
no `battle_id` filter and no `battle_id` parameter in the source. -/
def search_products (db : Store) (q : String) (seller_id : Option String) :
    List ProductRow :=
  let query := db.products
  -- `if seller_id:` — both None and the empty string are falsy
  let query :=
    match seller_id with
    | some sid => if sid ≠ "" then query.filter (fun p => p.seller_id = sid) else query
    | none => query
  -- `if q:` — filter on name/short/long description, ILIKE %q%
  let query :=
    if q ≠ "" then
      query.filter (fun p =>
        ilike p.name q || ilike p.short_description q || ilike p.long_description q)
    else query
  -- both branches of the source order identically
  stableSortBy searchLt query

/-! ## Purchase creation (`app/routers/purchases.py`, `create_purchase`) -/

/-- Replace every occurrence of `pat` (non-empty) by `repl`, scanning
left to right; `fuel` bounds the recursion and is instantiated with the
length of the scanned list. -/
def listReplaceAux (pat repl : List Char) : Nat → List Char → List Char
  | 0, l => l
  | _ + 1, [] => []
  | fuel + 1, c :: rest =>
    if listStartsWith pat (c :: rest) then
      repl ++ listReplaceAux pat repl fuel ((c :: rest).drop pat.length)
    else c :: listReplaceAux pat repl fuel rest

/-- Token extraction from the `Authorization` header:
`authorization.replace("Bearer ", "") if
authorization.startswith("Bearer ") else authorization`. -/
def stripBearer (authorization : String) : String :=
  if listStartsWith "Bearer ".data authorization.data then
    String.mk (listReplaceAux "Bearer ".data [] authorization.data.length authorization.data)
  else authorization

/-- `create_purchase(product_id, authorization, db)`.  After the buyer
and product lookups the source evaluates
`ensure_phase(db, [Phase.BUYER_SHOPPING])`, passing two arguments to the
three-parameter `ensure_phase(db, battle_id, allowed_phases)` of
`app/services/phase_manager.py`; in Python this raises `TypeError`
before any phase check, day/round stamping or insert happens (the
subsequent lines also call the two-parameter `get_current_round(db)`
and construct `Purchase(..., round=..., wholesale_cost_at_purchase=...)`
with keywords the ORM model `app/models/purchase.py` does not declare). -/
def create_purchase (db : Store) (product_id : String) (authorization : String) :
    Except ApiError PurchaseRow :=
  let token := stripBearer authorization
  match db.buyers.find? (fun b => b.auth_token = token) with
  | none => Except.error (ApiError.http 401 "Invalid authentication token")
  | some _buyer =>
    match db.products.find? (fun p => p.id = product_id) with
    | none => Except.error (ApiError.http 404 "Product not found")
    | some _product =>
        Except.error (ApiError.typeErr
          "TypeError: ensure_phase missing required positional argument allowed_phases")

/-! ## Product update (`app/routers/products.py`, `update_product`) -/

/-- Request body of `PATCH /product/{id}` (`ProductUpdate` in
`app/schemas/product.py`). -/
structure ProductUpdate where
  name : Option String := none
  short_description : Option String := none
  long_description : Option String := none
  price : Option Int := none
  image_ids : Option (List String) := none
  ranking : Option Int := none
deriving DecidableEq, Repr

/-- `update_product(id, product, authorization, db)`.  After the seller
lookup, product lookup and ownership check the source evaluates
`ensure_phase(db, [Phase.SELLER_MANAGEMENT])` — again two arguments for
the three-parameter `ensure_phase` — raising `TypeError`, so the field
updates further down (including `db_product.ranking = product.ranking`)
are unreachable. -/
def update_product (db : Store) (id : String) (product : ProductUpdate)
    (authorization : String) : Except ApiError Store :=
  let token := stripBearer authorization
  match db.sellers.find? (fun s => s.auth_token = token) with
  | none => Except.error (ApiError.http 401 "Invalid authentication token")
  | some seller =>
    match db.products.find? (fun p => p.id = id) with
    | none => Except.error (ApiError.http 404 "Product not found")
    | some db_product =>
      if db_product.seller_id ≠ seller.id then
        Except.error (ApiError.http 403 "You can only update your own products")
      else
        Except.error (ApiError.typeErr
          "TypeError: ensure_phase missing required positional argument allowed_phases")

/-! ## Ranking engine (`app/routers/rankings.py`, `update_rankings_by_sales`) -/

/-- Early-return body of `update_rankings_by_sales` with no battle
products: `{"message": ..., "updated_count": ...}` (the `top_products`
list of the success path is never built, see below). -/
structure RankingReport where
  message : String
  updated_count : Nat
deriving DecidableEq, Repr

/-- `update_rankings_by_sales(battle_id, db)`.  With no products in the
battle the source returns the early report (lines 60-61).  Otherwise it
reads the current round (line 64, correct two-argument call) and then
constructs the purchase-count query whose filter (lines 71-74) reads
`Purchase.battle_id` and `Purchase.round` — attributes the ORM model
`app/models/purchase.py` does not declare (it has only `id`,
`product_id`, `buyer_id`, `purchased_at`, `price_of_purchase`), so
Python raises `AttributeError` there and no ranking is ever assigned. -/
def update_rankings_by_sales (db : Store) (battle_id : String) :
    Except ApiError RankingReport :=
  let products := db.products.filter (fun p => p.battle_id = battle_id)
  if products = [] then
    Except.ok ⟨"No products to rank", 0⟩
  else
    Except.error (ApiError.attrErr
      "AttributeError: type object Purchase has no attribute battle_id")

/-! ## Leaderboard and per-seller stats (`app/routers/purchases.py`)

Both read endpoints of the stats family crash before any row is read.
`get_leaderboard(db)` (route `/buy/stats/leaderboard`, lines 105-270;
the handler takes no `battle_id` parameter at all) opens with
`current_round = get_current_round(db)` at line 112 — one argument for
the two-parameter `get_current_round(db, battle_id)` of
`app/services/round_manager.py` — so every request raises `TypeError`
before the seller query runs.  Were that call fixed, the stats query at
lines 123-137 reads `Purchase.round` and
`Purchase.wholesale_cost_at_purchase`, columns the ORM model
`app/models/purchase.py` does not declare, and would raise
`AttributeError`.  `get_purchases_per_seller(db)` (route
`/buy/stats/by-seller`, lines 68-102) opens with the same one-argument
`get_current_round(db)` call at line 76.  The response shapes the
handlers would build are kept below only to type the never-taken
success branches. -/

structure LeaderboardEntry where
  seller_id : String
  purchase_count : Int
  total_profit_cents : Int
deriving DecidableEq, Repr

structure RoundPayload where
  round : Int
  is_current_round : Bool
  leaderboard : List LeaderboardEntry
  winners : List String
deriving DecidableEq, Repr

structure OverallEntry where
  seller_id : String
  purchase_count : Int
  total_profit_cents : Int
  round_wins : Int
deriving DecidableEq, Repr

structure LeaderboardPayload where
  current_round : Int
  rounds : List RoundPayload
  overall_leaderboard : List OverallEntry
  overall_winners : List String
deriving DecidableEq, Repr

/-- `get_leaderboard(db)`: the first statement raises `TypeError`, so
the endpoint never returns a payload. -/
def get_leaderboard (db : Store) : Except ApiError LeaderboardPayload :=
  let _ := db
  Except.error (ApiError.typeErr
    "TypeError: get_current_round missing required positional argument battle_id")

/-- `get_purchases_per_seller(db)`: the first statement raises the same
`TypeError`, so the per-seller purchase counts are never returned. -/
def get_purchases_per_seller (db : Store) :
    Except ApiError (List (String × Int)) :=
  let _ := db
  Except.error (ApiError.typeErr
    "TypeError: get_current_round missing required positional argument battle_id")

/-! ## Concrete stores used in closed evaluations -/

/-- A battle `b1` whose phase was set to buyer shopping. -/
def exPhaseStore : Store :=
  ⟨[], [], [], [], [⟨"current_phase", "b1", "buyer_shopping"⟩]⟩

/-- Only battle `b1` ever set its day (to 7); `b2` set nothing. -/
def exDayLeakStore : Store :=
  ⟨[], [], [], [], [⟨"current_day", "b1", "7"⟩]⟩

/-- Metadata rows whose values do not parse as integers. -/
def exBadCounterStore : Store :=
  ⟨[], [], [], [],
    [⟨"current_day", "b1", "not-a-number"⟩, ⟨"current_round", "b1", "x7"⟩]⟩

/-- Two battles, one seller and one product each. -/
def exTwoBattleStore : Store :=
  ⟨[⟨"s1", "b1", "t1"⟩, ⟨"s2", "b2", "t2"⟩], [],
    [⟨"p1", "b1", "s1", "A", "sd", "ld", 1000, 800, false, some 1⟩,
      ⟨"p2", "b2", "s2", "B", "sd", "ld", 1000, 800, false, some 2⟩],
    [], []⟩

/-- One battle `b1` with two sellers, two products and three recorded
purchases. -/
def exLbStore : Store :=
  ⟨[⟨"s1", "b1", "t1"⟩, ⟨"s2", "b1", "t2"⟩], [],
    [⟨"p1", "b1", "s1", "A", "sd", "ld", 1500, 800, false, some 1⟩,
      ⟨"p2", "b1", "s2", "B", "sd", "ld", 1000, 800, false, some 2⟩],
    [⟨"u1", "p1", "y1", "b1", 0, 1, 1500, 800⟩,
      ⟨"u2", "p1", "y1", "b1", 0, 1, 1500, 800⟩,
      ⟨"u3", "p2", "y1", "b1", 0, 2, 1000, 800⟩],
    []⟩

/-- A valid buyer, seller and product in battle `b1`, whose phase is
buyer shopping. -/
def exShopStore : Store :=
  ⟨[⟨"s1", "b1", "stok"⟩], [⟨"y1", "b1", "btok", "buyer one"⟩],
    [⟨"p1", "b1", "s1", "A", "sd", "ld", 1500, 800, false, none⟩],
    [], [⟨"current_phase", "b1", "buyer_shopping"⟩]⟩

/-- The same battle during seller management. -/
def exMgmtStore : Store :=
  ⟨[⟨"s1", "b1", "stok"⟩], [⟨"y1", "b1", "btok", "buyer one"⟩],
    [⟨"p1", "b1", "s1", "A", "sd", "ld", 1500, 800, false, none⟩],
    [], [⟨"current_phase", "b1", "seller_management"⟩]⟩

/-! ## Theorems -/

theorem splitOnColon_ne_nil (s : List Char) : splitOnColon s ≠ [] := by
  cases s with
  | nil => simp [splitOnColon]
  | cons c rest =>
    simp only [splitOnColon]
    by_cases h : c = ':'
    · simp [h]
    · simp only [if_neg h]
      cases splitOnColon rest with
      | nil => simp
      | cons p ps => simp

theorem splitOnColon_append_colonfree (a s : List Char) (ha : ':' ∉ a) :
    splitOnColon (a ++ s) =
      match splitOnColon s with
      | [] => [a]
      | p :: ps => (a ++ p) :: ps := by
  induction a with
  | nil =>
    simp only [List.nil_append]
    cases h : splitOnColon s with
    | nil => exact absurd h (splitOnColon_ne_nil s)
    | cons p ps => simp
  | cons c cs ih =>
    have hc : c ≠ ':' := fun h => ha (h ▸ List.mem_cons_self c cs)
    have hcs : ':' ∉ cs := fun h => ha (List.mem_cons_of_mem c h)
    simp only [List.cons_append, splitOnColon, if_neg hc, List.append_eq]
    rw [ih hcs]
    cases h : splitOnColon s with
    | nil => exact absurd h (splitOnColon_ne_nil s)
    | cons p ps => simp

theorem splitOnColon_three (a b c : List Char)
    (ha : ':' ∉ a) (hb : ':' ∉ b) (hc : ':' ∉ c) :
    splitOnColon (a ++ ':' :: (b ++ ':' :: c)) = [a, b, c] := by
  have hmid : splitOnColon (':' :: (b ++ ':' :: c)) =
      [] :: splitOnColon (b ++ ':' :: c) := by
    simp [splitOnColon]
  have hb' : splitOnColon (b ++ ':' :: c) = b :: splitOnColon c := by
    rw [splitOnColon_append_colonfree b (':' :: c) hb]
    have : splitOnColon (':' :: c) = [] :: splitOnColon c := by
      simp [splitOnColon]
    rw [this]
    simp
  have hcc : splitOnColon c =
      match splitOnColon ([] : List Char) with
      | [] => [c]
      | p :: ps => (c ++ p) :: ps := by
    have := splitOnColon_append_colonfree c [] hc
    simpa using this
  have hc' : splitOnColon c = [c] := by
    rw [hcc]; simp [splitOnColon]
  rw [splitOnColon_append_colonfree a (':' :: (b ++ ':' :: c)) ha, hmid, hb', hc']
  simp

theorem decode_generate (entity_id battle_id secret : String)
    (h1 : ':' ∉ entity_id.data) (h2 : ':' ∉ battle_id.data)
    (h3 : ':' ∉ secret.data) :
    decode_auth_token (generate_auth_token entity_id battle_id secret) =
      some (entity_id, battle_id) := by
  have hdata : (generate_auth_token entity_id battle_id secret).data
      = entity_id.data ++ ':' :: (battle_id.data ++ ':' :: secret.data) := by
    simp [generate_auth_token, String.data_append]
  unfold decode_auth_token pySplitColon
  rw [hdata, splitOnColon_three _ _ _ h1 h2 h3]
  simp

theorem decode_none_of_not_three (token : String)
    (h : (pySplitColon token).length ≠ 3) : decode_auth_token token = none := by
  unfold decode_auth_token
  rcases hsp : pySplitColon token with _ | ⟨a, _ | ⟨b, _ | ⟨c, _ | ⟨d, rest⟩⟩⟩⟩ <;>
    simp_all

/-- C2 (amended): decoding a freshly issued token returns exactly the
issued `(entity_id, battle_id)` pair whenever neither id contains the
`:` separator (the random secret, drawn from the URL-safe alphabet, is
always colon-free); and decoding returns `none` — it never crashes —
whenever the token does not split on `:` into exactly three segments. -/
theorem auth_token_codec_correct :
    (∀ entity_id battle_id secret : String,
        ':' ∉ entity_id.data → ':' ∉ battle_id.data → ':' ∉ secret.data →
        decode_auth_token (generate_auth_token entity_id battle_id secret) =
          some (entity_id, battle_id))
    ∧ (∀ token : String, (pySplitColon token).length ≠ 3 →
        decode_auth_token token = none) :=
  ⟨decode_generate, decode_none_of_not_three⟩

/-- C2 counterexample: for an entity id that itself contains the `:`
separator the claimed identity `decode(issue(id, b)) = (id, b)` fails —
the token splits into four segments and decoding returns `none`. -/
theorem auth_token_roundtrip_fails_on_colon_id :
    decode_auth_token (generate_auth_token "a:b" "c" "s") ≠ some ("a:b", "c") := by
  decide

theorem auth_token_codec_correct_witness :
    decode_auth_token (generate_auth_token "seller-1" "battle-9" "SECRET") =
        some ("seller-1", "battle-9")
    ∧ decode_auth_token "justonepart" = none :=
  ⟨auth_token_codec_correct.1 "seller-1" "battle-9" "SECRET"
      (by decide) (by decide) (by decide),
    auth_token_codec_correct.2 "justonepart" (by decide)⟩

/-- C7: `ensure_phase` succeeds with the current phase exactly when the
current phase is OPEN or belongs to the allowed set; otherwise it
raises a 403 `PhaseViolation` carrying the current phase and the
allowed set. -/
theorem ensure_phase_spec (db : Store) (battle_id : String)
    (allowed_phases : List Phase) :
    ((∃ p, ensure_phase db battle_id allowed_phases = Except.ok p) ↔
      (get_current_phase db battle_id = Phase.open_ ∨
        get_current_phase db battle_id ∈ allowed_phases))
    ∧ (∀ p, ensure_phase db battle_id allowed_phases = Except.ok p →
        p = get_current_phase db battle_id)
    ∧ (∀ err, ensure_phase db battle_id allowed_phases = Except.error err →
        err.status = 403 ∧ err.current = get_current_phase db battle_id ∧
        err.allowed = allowed_phases ∧
        ¬(get_current_phase db battle_id = Phase.open_ ∨
          get_current_phase db battle_id ∈ allowed_phases)) := by
  simp only [ensure_phase]
  by_cases h : get_current_phase db battle_id = Phase.open_ ∨
      get_current_phase db battle_id ∈ allowed_phases
  · rw [if_pos h]
    refine ⟨⟨fun _ => h, fun _ => ⟨_, rfl⟩⟩, ?_, ?_⟩
    · intro p hp
      exact (Except.ok.inj hp).symm
    · intro err herr
      exact Except.noConfusion herr
  · rw [if_neg h]
    refine ⟨⟨?_, fun hh => absurd hh h⟩, ?_, ?_⟩
    · rintro ⟨p, hp⟩
      exact Except.noConfusion hp
    · intro p hp
      exact Except.noConfusion hp
    · intro err herr
      have herr' := (Except.error.inj herr).symm
      subst herr'
      exact ⟨rfl, rfl, rfl, h⟩

theorem ensure_phase_spec_witness :
    Phase.buyer_shopping = get_current_phase exPhaseStore "b1" :=
  (ensure_phase_spec exPhaseStore "b1" [Phase.buyer_shopping]).2.1
    Phase.buyer_shopping (by decide)

/-- C10: when the stored `current_day` (resp. per-battle
`current_round`) value exists but does not parse as an integer, the
getters fall back to the defaults 0 (resp. 1) instead of raising. -/
theorem counter_parse_fallback (db : Store) (battle_id : String)
    (rday rround : MetadataRow) :
    (db.metadata.find? (fun m => m.key = DAY_KEY) = some rday →
      pyInt rday.value = none → get_current_day db = 0)
    ∧ (db.metadata.find? (fun m => m.key = ROUND_KEY ∧ m.battle_id = battle_id) =
        some rround → pyInt rround.value = none →
        get_current_round db battle_id = 1) := by
  constructor
  · intro hf hp
    unfold get_current_day
    rw [hf]
    show (pyInt rday.value).getD DEFAULT_DAY = 0
    rw [hp]
    rfl
  · intro hf hp
    unfold get_current_round
    rw [hf]
    show (pyInt rround.value).getD DEFAULT_ROUND = 1
    rw [hp]
    rfl

theorem counter_parse_fallback_witness :
    get_current_day exBadCounterStore = 0 ∧
    get_current_round exBadCounterStore "b1" = 1 :=
  ⟨(counter_parse_fallback exBadCounterStore "b1"
      ⟨"current_day", "b1", "not-a-number"⟩ ⟨"current_round", "b1", "x7"⟩).1
      (by decide) (by decide),
    (counter_parse_fallback exBadCounterStore "b1"
      ⟨"current_day", "b1", "not-a-number"⟩ ⟨"current_round", "b1", "x7"⟩).2
      (by decide) (by decide)⟩

/-- C8 (code evaluation): only battle `b1` ever set its day counter (to
7), yet `get_current_day` — which takes no battle at all in the source
and reads the first `current_day` row of any battle — returns 7 for
every caller, battle `b2` included; the battle-scoped round counter
correctly reads its default 1 for `b2`. -/
theorem day_counter_not_per_battle :
    get_current_day exDayLeakStore = 7 ∧
    get_current_round exDayLeakStore "b2" = 1 := by
  decide

/-- C5 (code evaluation): with a valid buyer token and an existing
product, purchase creation raises `TypeError` — an HTTP 500, not a
created purchase and not a 403 phase rejection — both during
buyer shopping and during seller management, because the source calls
the three-parameter `ensure_phase` with two arguments. -/
theorem create_purchase_type_error :
    create_purchase exShopStore "p1" "Bearer btok" =
      Except.error (ApiError.typeErr
        "TypeError: ensure_phase missing required positional argument allowed_phases")
    ∧ create_purchase exMgmtStore "p1" "Bearer btok" =
      Except.error (ApiError.typeErr
        "TypeError: ensure_phase missing required positional argument allowed_phases") := by
  decide

/-- C9 (code evaluation): the owning seller's authenticated update with
a `ranking` value — even during seller management, the allowed phase —
raises `TypeError` at the malformed `ensure_phase` call before the
ranking assignment is reached, so the endpoint cannot change a
ranking. -/
theorem update_product_type_error :
    update_product exMgmtStore "p1"
      { ranking := some 5 } "Bearer stok" =
      Except.error (ApiError.typeErr
        "TypeError: ensure_phase missing required positional argument allowed_phases") := by
  decide


/-- C1 (code evaluation): with one seller and one product in each of
two battles, the product listing returns both battles' products — there
is no `battle_id` filter or parameter in `search_products` — and the
two battle-scoped stats reads (`/buy/stats/leaderboard`,
`/buy/stats/by-seller`) never return scoped rows at all: both raise
`TypeError` at their opening one-argument `get_current_round(db)` call,
so the invariant "every row returned for a B-scoped query carries
battle_id = B" fails for the former and is vacuously unservable for the
latter two. -/
theorem battle_scoping_violation :
    (search_products exTwoBattleStore "" none).map (fun p => p.battle_id) =
      ["b1", "b2"]
    ∧ get_leaderboard exTwoBattleStore =
      Except.error (ApiError.typeErr
        "TypeError: get_current_round missing required positional argument battle_id")
    ∧ get_purchases_per_seller exTwoBattleStore =
      Except.error (ApiError.typeErr
        "TypeError: get_current_round missing required positional argument battle_id") := by
  decide

/-- C3 (code evaluation): the leaderboard endpoint never produces the
per-round profit totals the claim is about — for every store its first
statement, the one-argument `get_current_round(db)` call, raises
`TypeError`, so every request ends in an HTTP 500 and no
`LeaderboardPayload` exists whose `total_profit_cents` could be
checked. -/
theorem leaderboard_always_type_error (db : Store) :
    get_leaderboard db =
      Except.error (ApiError.typeErr
        "TypeError: get_current_round missing required positional argument battle_id") :=
  rfl

/-- C4 (code evaluation): no round winners list is ever computed — for
every store the leaderboard endpoint crashes before its winners logic,
so it never returns a successful payload at all. -/
theorem leaderboard_never_returns_payload (db : Store)
    (payload : LeaderboardPayload) :
    get_leaderboard db ≠ Except.ok payload := by
  simp [get_leaderboard]

/-- C6 (code evaluation): whenever the battle contains at least one
product, `update_rankings_by_sales` raises `AttributeError` at the
purchase-count query — `Purchase.battle_id` and `Purchase.round` are
not attributes of the ORM model — so no rank is ever assigned and the
claimed sort-by-sales ordering never materializes (with zero products
the source instead returns early, also without ranking anything). -/
theorem update_by_sales_attribute_error (db : Store) (battle_id : String)
    (p : ProductRow) (hp : p ∈ db.products) (hb : p.battle_id = battle_id) :
    update_rankings_by_sales db battle_id =
      Except.error (ApiError.attrErr
        "AttributeError: type object Purchase has no attribute battle_id") := by
  unfold update_rankings_by_sales
  have hne : db.products.filter (fun q => q.battle_id = battle_id) ≠ [] := by
    intro hnil
    have hmem : p ∈ db.products.filter (fun q => q.battle_id = battle_id) :=
      List.mem_filter.mpr ⟨hp, by simp [hb]⟩
    rw [hnil] at hmem
    exact List.not_mem_nil p hmem
  rw [if_neg hne]

theorem update_by_sales_attribute_error_witness :
    update_rankings_by_sales exLbStore "b1" =
      Except.error (ApiError.attrErr
        "AttributeError: type object Purchase has no attribute battle_id") :=
  update_by_sales_attribute_error exLbStore "b1"
    ⟨"p1", "b1", "s1", "A", "sd", "ld", 1500, 800, false, some 1⟩
    (by decide) (by decide)

end Marketplace
